import Mathlib

/-!
# Verification of the WorkFlow Upwork scraping pipeline

Shallow embedding of the HTML job-listing parser
(`src/scripts/upwork_data_parser.py`) and of the SQLite persistence layer
(`src/data/database_manager.py`, `src/data/database_cleanup.py`).

Conventions of the embedding:
* BeautifulSoup is an external library; an HTML element is modelled as an
  oracle answering exactly the queries the program makes (`get` of an
  attribute, `select_one`, `select`, `get_text(strip=True)`), and a parsed
  document (`soup`) likewise.
* The specific regular expressions used by the source are implemented as
  deterministic scanners; for these patterns (whose character classes are
  pairwise disjoint at every join point) maximal munch coincides with
  Python's backtracking search, and scanning start positions left to right
  gives `re.search`'s leftmost match.
* SQLite tables are lists of rows in rowid order; `AUTOINCREMENT` is a
  counter starting at 1; `DEFAULT CURRENT_TIMESTAMP` columns take an
  explicit `now` argument (timestamps are totally ordered ticks);
  `cursor.lastrowid` is connection-local, 0 on a fresh connection, and
  updated only by a successful insert, so an `INSERT OR IGNORE` that is
  ignored on the fresh connection each method opens yields 0.
-/

namespace Upwork

/-! ## Python string primitives -/

/-- The ASCII characters matched by Python's regex class `\s`
(space, tab, newline, carriage return, vertical tab, form feed). -/
def pyIsSpace (c : Char) : Bool :=
  c = ' ' || c = '\t' || c = '\n' || c = '\r' || c = '\x0b' || c = '\x0c'

/-- The character class `[0-9,.]` used by the rate and budget regexes. -/
def isRateChar (c : Char) : Bool :=
  c.isDigit || c = ',' || c = '.'

/-- The character class `[\d,]` (ASCII part) used by the jobs-count regex. -/
def isCountChar (c : Char) : Bool :=
  c.isDigit || c = ','

/-- Literal stripping: `stripLit lit cs` removes the literal `lit` from the front of `cs`,
returning the remainder, or `none` when `cs` does not start with `lit`. -/
def stripLit : List Char → List Char → Option (List Char)
  | [], cs => some cs
  | _ :: _, [] => none
  | a :: as, c :: cs => if a = c then stripLit as cs else none

/-- Substring test on character lists: does the needle occur in the haystack?
Models Python's `needle in hay`. -/
def containsAux (needle : List Char) : List Char → Bool
  | [] => (stripLit needle []).isSome
  | c :: cs => (stripLit needle (c :: cs)).isSome || containsAux needle cs

/-- Python's `pat in text` on strings. -/
def strContains (text pat : String) : Bool :=
  containsAux pat.toList text.toList

/-- Python's `s.startswith(pre)`. -/
def strStartsWith (s pre : String) : Bool :=
  (stripLit pre.toList s.toList).isSome

/-- Python's `s.strip()` restricted to ASCII whitespace. -/
def pyStrip (s : String) : String :=
  String.mk (((s.toList.dropWhile pyIsSpace).reverse.dropWhile pyIsSpace).reverse)

/-- Models `os.path.basename` for forward-slash paths. -/
def basename (p : String) : String :=
  (p.splitOn "/").getLastD p

/-! ## The regular expressions of `upwork_data_parser.py`

`re.search(r'Hourly:\s*\$([0-9,.]+)\s*-\s*\$([0-9,.]+)', text)` (line 92),
`re.search(r'Est\. budget:\s*\$([0-9,.]+)', text)` (line 98) and
`re.search(r'([\d,]+)\s+jobs?\s+found', count_text)` (line 166).
Each is implemented as: try every start position left to right; at a
position, attempt the pattern by maximal munch (equivalent to Python's
backtracking because consecutive classes are disjoint). -/

/-- Attempt the tail `\s*\$([0-9,.]+)\s*-\s*\$([0-9,.]+)` of the hourly-rate
pattern, positioned just after the literal `Hourly:`. -/
def matchHourlyTail (cs : List Char) : Option (String × String) :=
  match cs.dropWhile pyIsSpace with
  | '$' :: cs2 =>
    let g1 := cs2.takeWhile isRateChar
    let cs3 := cs2.dropWhile isRateChar
    if g1.isEmpty then none else
    match cs3.dropWhile pyIsSpace with
    | '-' :: cs5 =>
      match cs5.dropWhile pyIsSpace with
      | '$' :: cs7 =>
        let g2 := cs7.takeWhile isRateChar
        if g2.isEmpty then none else some (String.mk g1, String.mk g2)
      | _ => none
    | _ => none
  | _ => none

/-- Scan all start positions for the hourly-rate pattern. -/
def searchHourlyAux : List Char → Option (String × String)
  | [] => none
  | c :: cs =>
    match stripLit ("Hourly:".toList) (c :: cs) with
    | some rest =>
      match matchHourlyTail rest with
      | some r => some r
      | none => searchHourlyAux cs
    | none => searchHourlyAux cs

/-- Models `re.search(r'Hourly:\s*\$([0-9,.]+)\s*-\s*\$([0-9,.]+)', text)`,
returning the two captured groups. -/
def searchHourly (text : String) : Option (String × String) :=
  searchHourlyAux text.toList

/-- Attempt the tail `\s*\$([0-9,.]+)` of the budget pattern, positioned
just after the literal `Est. budget:`. -/
def matchBudgetTail (cs : List Char) : Option String :=
  match cs.dropWhile pyIsSpace with
  | '$' :: cs2 =>
    let g := cs2.takeWhile isRateChar
    if g.isEmpty then none else some (String.mk g)
  | _ => none

/-- Scan all start positions for the budget pattern. -/
def searchBudgetAux : List Char → Option String
  | [] => none
  | c :: cs =>
    match stripLit ("Est. budget:".toList) (c :: cs) with
    | some rest =>
      match matchBudgetTail rest with
      | some r => some r
      | none => searchBudgetAux cs
    | none => searchBudgetAux cs

/-- Models `re.search(r'Est\. budget:\s*\$([0-9,.]+)', text)`, returning the
captured group. -/
def searchBudget (text : String) : Option String :=
  searchBudgetAux text.toList

/-- Attempt `([\d,]+)\s+jobs?\s+found` at the current position.  When the
optional `s` is present it must be taken: the alternative without it would
next require whitespace at the `s`, which fails. -/
def matchCountAt (cs : List Char) : Option String :=
  let g := cs.takeWhile isCountChar
  if g.isEmpty then none else
  let cs1 := cs.dropWhile isCountChar
  if (cs1.takeWhile pyIsSpace).isEmpty then none else
  match stripLit ("job".toList) (cs1.dropWhile pyIsSpace) with
  | none => none
  | some cs3 =>
    let cs4 := match cs3 with | 's' :: r => r | _ => cs3
    if (cs4.takeWhile pyIsSpace).isEmpty then none else
    match stripLit ("found".toList) (cs4.dropWhile pyIsSpace) with
    | some _ => some (String.mk g)
    | none => none

/-- Scan all start positions for the jobs-count pattern. -/
def searchCountAux : List Char → Option String
  | [] => none
  | c :: cs =>
    match matchCountAt (c :: cs) with
    | some r => some r
    | none => searchCountAux cs

/-- Models `re.search(r'([\d,]+)\s+jobs?\s+found', count_text)`, returning the
captured group. -/
def searchCount (text : String) : Option String :=
  searchCountAux text.toList

/-- Python's `s.replace(',', '')`. -/
def removeCommas (s : String) : String :=
  String.mk (s.toList.filter (fun c => c ≠ ','))

/-! ## Job-info extraction (`upwork_data_parser.py` lines 77-112) -/

/-- The `job_info` dictionary accumulated over the job-info list items. -/
structure JobInfo where
  type : Option String
  experienceLevel : Option String
  budget : Option String
  hourlyRateMin : Option String
  hourlyRateMax : Option String
  duration : Option String
deriving DecidableEq, Repr

/-- The empty `job_info = {}` dictionary. -/
def emptyJobInfo : JobInfo :=
  { type := none, experienceLevel := none, budget := none,
    hourlyRateMin := none, hourlyRateMax := none, duration := none }

/-- The body of the `for item in job_info_items` loop (lines 83-110): an
`elif` chain on the stripped text of one list item, updating `job_info`. -/
def processJobInfoItem (info : JobInfo) (text : String) : JobInfo :=
  if strContains text "Fixed price" then
    { info with type := some "Fixed price" }
  else if strContains text "Hourly:" then
    let info := { info with type := some "Hourly" }
    match searchHourly text with
    | some (mn, mx) => { info with hourlyRateMin := some mn, hourlyRateMax := some mx }
    | none => info
  else if strContains text "Est. budget:" then
    match searchBudget text with
    | some b => { info with budget := some b }
    | none => info
  else if strContains text "Entry Level" || strContains text "Intermediate"
      || strContains text "Expert" then
    if strContains text "Entry Level" then { info with experienceLevel := some "Entry Level" }
    else if strContains text "Intermediate" then { info with experienceLevel := some "Intermediate" }
    else if strContains text "Expert" then { info with experienceLevel := some "Expert" }
    else info
  else if strContains text "Est. time:" then
    { info with duration := some (pyStrip ((text.replace "Est. time:" ""))) }
  else info

/-! ## The BeautifulSoup element oracle

An HTML element answers the queries the parser makes of it.  `attrsF` is
`element.get(name)` (`none` when the attribute is absent), `selectOneF` and
`selectF` are CSS-selector queries scoped to the element's descendants, and
`textStrip` is `element.get_text(strip=True)`. -/

inductive Element where
  | mk (attrsF : String → Option String)
       (selectOneF : String → Option Element)
       (selectF : String → List Element)
       (textStrip : String)

/-- Models `element.get(name)` without a default. -/
def Element.getAttr : Element → String → Option String
  | .mk a _ _ _, name => a name

/-- Models `element.select_one(sel)`. -/
def Element.selectOne : Element → String → Option Element
  | .mk _ s _ _, sel => s sel

/-- Models `element.select(sel)`. -/
def Element.select : Element → String → List Element
  | .mk _ _ s _, sel => s sel

/-- Models `element.get_text(strip=True)`. -/
def Element.getTextStrip : Element → String
  | .mk _ _ _ t => t

/-- A parsed HTML document: the queries `parse_upwork_jobs` and
`extract_metadata` make of the BeautifulSoup object.  `titleText` is
`soup.title.get_text(strip=True)` when the document has a `<title>` tag,
`canonicalLink` is `soup.find('link', {'rel': 'canonical'})`. -/
structure Soup where
  select : String → List Element
  selectOne : String → Option Element
  titleText : Option String
  canonicalLink : Option Element

/-! ## `parse_upwork_jobs` (`upwork_data_parser.py` lines 18-140) -/

/-- One parsed job record (the per-element dictionary built by the loop).
Keys that the code sets only conditionally are `Option`s; `job_info` is
always set, `skills` is always set (possibly empty). -/
structure JobData where
  jobUid : Option String
  title : Option String
  url : Option String
  postedTime : Option String
  jobInfo : JobInfo
  description : Option String
  skills : List String
deriving DecidableEq, Repr

/-- The selector fallback chain choosing the job elements (lines 27-33):
each later selector is consulted only when every earlier one matched
nothing. -/
def jobElements (soup : Soup) : List Element :=
  let j1 := soup.select "article[data-test=\"JobTile\"]"
  let j2 := if j1.isEmpty then soup.select "section[data-qa=\"job-tile\"]" else j1
  if j2.isEmpty then soup.select "[data-qa=\"job-tile\"]" else j2

/-- The title-link fallback chain (lines 50-60). -/
def titleLinkOf (e : Element) : Option Element :=
  match e.selectOne "h2.job-tile-title a[data-test=\"job-tile-title-link\"]" with
  | some l => some l
  | none =>
    match e.selectOne "h2 a[data-qa=\"job-title\"]" with
    | some l => some l
    | none =>
      match e.selectOne "h2 a" with
      | some l => some l
      | none =>
        match e.selectOne "a[data-test=\"job-tile-title-link\"]" with
        | some l => some l
        | none => e.selectOne "a[data-qa=\"job-title\"]"

/-- The title text extracted from a job element, when a title link was
found (line 62). -/
def extractedTitle (e : Element) : Option String :=
  (titleLinkOf e).map Element.getTextStrip

/-- The posted-time element fallback (lines 70-72). -/
def postedTimeElemOf (e : Element) : Option Element :=
  match e.selectOne "small[data-test=\"job-pubilshed-date\"]" with
  | some p => some p
  | none => e.selectOne "small"

/-- The job-info list items fallback (lines 79-81). -/
def jobInfoItemsOf (e : Element) : List Element :=
  let items := e.select "ul[data-test=\"JobInfo\"] li"
  if items.isEmpty then e.select "ul li" else items

/-- The description element fallback (lines 115-119). -/
def descriptionElemOf (e : Element) : Option Element :=
  match e.selectOne "[data-test=\"UpCLineClamp JobDescription\"] .air3-line-clamp p" with
  | some d => some d
  | none =>
    match e.selectOne ".air3-line-clamp p" with
    | some d => some d
    | none => e.selectOne "p"

/-- The skill elements fallback (lines 126-128). -/
def skillElemsOf (e : Element) : List Element :=
  let els := e.select "[data-test=\"TokenClamp JobAttrs\"] .air3-token span"
  if els.isEmpty then e.select ".air3-token span" else els

/-- The "more skills" indicators skipped at line 132. -/
def moreTokens : List String := ["+1", "+2", "+3", "+4", "+5"]

/-- The body of the `for job_element in job_elements` loop (lines 39-134):
build the `job_data` dictionary for one job element. -/
def parseJobElement (e : Element) : JobData :=
  let uid := (e.getAttr "data-ev-job-uid").getD ""
  let tl := titleLinkOf e
  { jobUid := if uid = "" then none else some uid
    title := extractedTitle e
    url := tl.map (fun l =>
      let href := (l.getAttr "href").getD ""
      if href != "" && !(strStartsWith href "http") then
        "https://www.upwork.com" ++ href
      else href)
    postedTime := (postedTimeElemOf e).map Element.getTextStrip
    jobInfo := (jobInfoItemsOf e).foldl
      (fun info it => processJobInfoItem info it.getTextStrip) emptyJobInfo
    description := (descriptionElemOf e).map Element.getTextStrip
    skills := ((skillElemsOf e).map Element.getTextStrip).filter
      (fun t => t != "" && !(moreTokens.contains t)) }

/-- Tests that `job_data.get('title')` is truthy: the key is present and non-empty
(line 137). -/
def titleTruthy (jd : JobData) : Bool :=
  match jd.title with
  | some t => t != ""
  | none => false

/-- Models `parse_upwork_jobs(soup)`: parse every selected job element, keeping
only the records that have a truthy title (lines 18-140). -/
def parse_upwork_jobs (soup : Soup) : List JobData :=
  ((jobElements soup).map parseJobElement).filter titleTruthy

/-! ## `extract_metadata` (lines 142-173) and `parse_html_file` (175-211) -/

/-- The metadata dictionary built by `extract_metadata`, plus the
`source_file` key added by `parse_html_file`. -/
structure Metadata where
  title : String
  url : String
  scrapedAt : String
  totalJobsFound : Nat
  jobsCountText : String
  totalJobsOnPage : Option Nat
  sourceFile : Option String
deriving DecidableEq, Repr

/-- Models `extract_metadata(soup)`: page title, canonical URL, scrape time and the
jobs-count extracted by regex (with `int()` failing to `none` exactly when
the captured group is all commas). -/
def extract_metadata (nowIso : String) (soup : Soup) : Metadata :=
  let countInfo :=
    match soup.selectOne "[data-test=\"JobsCountQA JobsCount\"]" with
    | some el =>
      let ct := el.getTextStrip
      (ct, (searchCount ct).bind (fun g => (removeCommas g).toNat?))
    | none => ("", none)
  { title := soup.titleText.getD ""
    url := match soup.canonicalLink with
           | some c => (c.getAttr "href").getD ""
           | none => ""
    scrapedAt := nowIso
    totalJobsFound := 0
    jobsCountText := countInfo.1
    totalJobsOnPage := countInfo.2
    sourceFile := none }

/-- The `parsing_stats` dictionary of `parse_html_file`'s result. -/
structure ParsingStats where
  htmlLength : Option Nat
  jobsExtracted : Option Nat
  parsingSuccessful : Bool
deriving DecidableEq, Repr

/-- The dictionary returned by `parse_html_file`: on success the `metadata`,
`jobs` and full `parsing_stats` keys are present; on failure the `error`
and top-level `source_file` keys are present instead. -/
structure ParseHtmlResult where
  error : Option String
  metadata : Option Metadata
  jobs : Option (List JobData)
  sourceFile : Option String
  parsingStats : ParsingStats
deriving DecidableEq, Repr

/-- Models `parse_html_file(file_path)`.  Reading and soup construction are the
only failing steps; their outcome is the `input` argument.  The
`try`/`except` of the source makes the function total: every outcome maps
to a result dictionary. -/
def parse_html_file (nowIso : String) (filePath : String)
    (input : Except String (String × Soup)) : ParseHtmlResult :=
  match input with
  | .error e =>
    { error := some e, metadata := none, jobs := none,
      sourceFile := some (basename filePath),
      parsingStats := { htmlLength := none, jobsExtracted := none,
                        parsingSuccessful := false } }
  | .ok (htmlContent, soup) =>
    let jobs := parse_upwork_jobs soup
    let md0 := extract_metadata nowIso soup
    { error := none
      metadata := some { md0 with totalJobsFound := jobs.length,
                                  sourceFile := some (basename filePath) }
      jobs := some jobs
      sourceFile := none
      parsingStats := { htmlLength := some htmlContent.length,
                        jobsExtracted := some jobs.length,
                        parsingSuccessful := decide (0 < jobs.length) } }

/-! ## The SQLite database (`database_manager.py`)

Only the tables the claims touch are modelled (`scraped_data`, `jobs`,
`cover_letters`).  Rows are kept in rowid order; the next `AUTOINCREMENT`
rowid of each table is a counter starting at 1. -/

/-- A row of `scraped_data` (schema lines 36-47): `raw_content` is
`NOT NULL`, `status` defaults to `'active'`, `scrape_timestamp` defaults to
`CURRENT_TIMESTAMP`. -/
structure ScrapedRow where
  id : Nat
  scrapeType : String
  sourceUrl : Option String
  scrapeTimestamp : Nat
  rawContent : String
  filePath : Option String
  status : String
  notes : Option String
deriving DecidableEq, Repr

/-- A row of `jobs` (schema lines 66-85): `job_uid TEXT UNIQUE` (nullable),
`job_title TEXT NOT NULL`, everything else nullable; `skills` stores a JSON
string. -/
structure JobRow where
  id : Nat
  scrapeId : Nat
  jobUid : Option String
  jobTitle : String
  jobUrl : Option String
  postedTime : Option String
  jobType : Option String
  experienceLevel : Option String
  budget : Option String
  hourlyRateMin : Option String
  hourlyRateMax : Option String
  duration : Option String
  skills : String
  description : Option String
  parsedTimestamp : Nat
deriving DecidableEq, Repr

/-- A row of `cover_letters` (schema lines 159-171): `job_id INTEGER NOT
NULL` referencing `jobs(id)`, `status` defaults to `'generated'`,
`generated_timestamp` defaults to `CURRENT_TIMESTAMP`. -/
structure CoverLetterRow where
  id : Nat
  jobId : Nat
  aiProvider : String
  coverLetterText : String
  generatedTimestamp : Nat
  status : String
  rating : Option Nat
  notes : Option String
deriving DecidableEq, Repr

/-- The database state. -/
structure DB where
  scrapedData : List ScrapedRow
  nextScrapeId : Nat
  jobs : List JobRow
  nextJobId : Nat
  coverLetters : List CoverLetterRow
  nextCoverId : Nat
deriving DecidableEq, Repr

/-- The freshly initialised database (`init_database` creates empty
tables; `AUTOINCREMENT` rowids start at 1). -/
def emptyDB : DB :=
  { scrapedData := [], nextScrapeId := 1,
    jobs := [], nextJobId := 1,
    coverLetters := [], nextCoverId := 1 }

/-- Models `json.dumps` of a list of strings (escaping of special characters
inside the strings is not modelled; the default separator `', '` is). -/
def jsonEncodeStringList (l : List String) : String :=
  "[" ++ String.intercalate ", " (l.map (fun s => "\x22" ++ s ++ "\x22")) ++ "]"

/-- Models `add_scraped_data` (lines 177-196): one unconditional `INSERT` into
`scraped_data`; `status` takes its column default `'active'` and
`scrape_timestamp` the current time; returns `cursor.lastrowid`, the rowid
of the new row. -/
def add_scraped_data (now : Nat) (db : DB) (scrape_type : String)
    (raw_content : String) (source_url : Option String)
    (file_path : Option String) (notes : Option String) : DB × Nat :=
  let row : ScrapedRow :=
    { id := db.nextScrapeId, scrapeType := scrape_type, sourceUrl := source_url,
      scrapeTimestamp := now, rawContent := raw_content, filePath := file_path,
      status := "active", notes := notes }
  ({ db with scrapedData := db.scrapedData ++ [row],
             nextScrapeId := db.nextScrapeId + 1 },
   db.nextScrapeId)

/-- Does inserting a row with this `job_uid` violate the `UNIQUE`
constraint?  `NULL` uids never conflict. -/
def uidConflict (rows : List JobRow) (uid : Option String) : Bool :=
  match uid with
  | none => false
  | some u => rows.any (fun r => r.jobUid == some u)

/-- Models `add_job` (lines 199-229): `INSERT OR IGNORE INTO jobs`.  The insert is
silently ignored when `job_title` would be `NULL` (`NOT NULL` constraint:
the job dictionary has no `title` key) or when the non-null `job_uid`
equals an existing row's (`UNIQUE` constraint).  Returns
`cursor.lastrowid`: the new rowid on a successful insert, 0 on an ignored
one (fresh connection, no successful insert). -/
def add_job (now : Nat) (db : DB) (scrape_id : Nat) (jd : JobData) : DB × Nat :=
  match jd.title with
  | none => (db, 0)
  | some t =>
    if uidConflict db.jobs jd.jobUid then (db, 0)
    else
      let row : JobRow :=
        { id := db.nextJobId, scrapeId := scrape_id, jobUid := jd.jobUid,
          jobTitle := t, jobUrl := jd.url, postedTime := jd.postedTime,
          jobType := jd.jobInfo.type, experienceLevel := jd.jobInfo.experienceLevel,
          budget := jd.jobInfo.budget, hourlyRateMin := jd.jobInfo.hourlyRateMin,
          hourlyRateMax := jd.jobInfo.hourlyRateMax, duration := jd.jobInfo.duration,
          skills := jsonEncodeStringList jd.skills, description := jd.description,
          parsedTimestamp := now }
      ({ db with jobs := db.jobs ++ [row], nextJobId := db.nextJobId + 1 },
       db.nextJobId)

/-- Models `add_cover_letter` (lines 258-270): one unconditional `INSERT` into
`cover_letters`; `status` and `generated_timestamp` take their column
defaults; returns the new rowid. -/
def add_cover_letter (now : Nat) (db : DB) (job_id : Nat) (ai_provider : String)
    (cover_letter_text : String) (notes : Option String) : DB × Nat :=
  let row : CoverLetterRow :=
    { id := db.nextCoverId, jobId := job_id, aiProvider := ai_provider,
      coverLetterText := cover_letter_text, generatedTimestamp := now,
      status := "generated", rating := none, notes := notes }
  ({ db with coverLetters := db.coverLetters ++ [row],
             nextCoverId := db.nextCoverId + 1 },
   db.nextCoverId)

/-- Models `update_cover_letter_status` (lines 326-335): overwrite `status`,
`rating` and `notes` of the row with the given id. -/
def update_cover_letter_status (db : DB) (cover_letter_id : Nat)
    (status : String) (rating : Option Nat) (notes : Option String) : DB :=
  { db with coverLetters := db.coverLetters.map (fun cl =>
      if cl.id = cover_letter_id then
        { cl with status := status, rating := rating, notes := notes }
      else cl) }

/-- Models `delete_cover_letter` (lines 337-345). -/
def delete_cover_letter (db : DB) (cover_letter_id : Nat) : DB :=
  { db with coverLetters := db.coverLetters.filter (fun cl => cl.id != cover_letter_id) }

/-- The dictionary `get_cover_letters_for_job` builds from each selected
row (lines 277-291): the seven selected columns; `job_id` itself is not
returned. -/
structure CoverLetterView where
  id : Nat
  aiProvider : String
  coverLetterText : String
  generatedTimestamp : Nat
  status : String
  rating : Option Nat
  notes : Option String
deriving DecidableEq, Repr

/-- The row-to-dictionary projection of `get_cover_letters_for_job`. -/
def viewOfRow (cl : CoverLetterRow) : CoverLetterView :=
  { id := cl.id, aiProvider := cl.aiProvider, coverLetterText := cl.coverLetterText,
    generatedTimestamp := cl.generatedTimestamp, status := cl.status,
    rating := cl.rating, notes := cl.notes }

/-- The `ORDER BY generated_timestamp DESC` relation: earlier rows of the
result have later (or equal) timestamps. -/
def tsDesc (a b : CoverLetterRow) : Prop :=
  b.generatedTimestamp ≤ a.generatedTimestamp

instance : DecidableRel tsDesc := fun a b =>
  Nat.decLe b.generatedTimestamp a.generatedTimestamp

instance : IsTotal CoverLetterRow tsDesc :=
  ⟨fun a b => (Nat.le_total b.generatedTimestamp a.generatedTimestamp).imp id id⟩

instance : IsTrans CoverLetterRow tsDesc :=
  ⟨fun _ _ _ h1 h2 => Nat.le_trans h2 h1⟩

/-- Models `get_cover_letters_for_job` (lines 272-294): `SELECT ... FROM
cover_letters WHERE job_id = ? ORDER BY generated_timestamp DESC`, each row
projected to its dictionary. -/
def get_cover_letters_for_job (db : DB) (job_id : Nat) : List CoverLetterView :=
  (List.insertionSort tsDesc
    (db.coverLetters.filter (fun cl => cl.jobId == job_id))).map viewOfRow

/-- The JSON file read by `import_from_json_file`: the keys the function
uses (`data['metadata']['url']`, `data['jobs']`) together with the file's
re-serialisation `json.dumps(data)` (kept abstract as a field). -/
structure JsonFile where
  metadataUrl : Option String
  jobs : Option (List JobData)
  dumps : String
deriving Repr

/-- Models `import_from_json_file` (lines 576-600): add one `scraped_data` row for
the file, then `add_job` each entry of the `jobs` list, counting every
entry (whether or not its insert was ignored).  Returns
`(scrape_id, jobs_added)`. -/
def import_from_json_file (now : Nat) (db : DB) (file_path : String)
    (scrape_type : String) (data : JsonFile) : DB × Nat × Nat :=
  let res1 := add_scraped_data now db scrape_type data.dumps data.metadataUrl
      (some file_path) (some ("Imported from " ++ basename file_path))
  match data.jobs with
  | none => (res1.1, res1.2, 0)
  | some l =>
    let res2 := l.foldl
      (fun (acc : DB × Nat) job => ((add_job now acc.1 res1.2 job).1, acc.2 + 1))
      (res1.1, 0)
    (res2.1, res1.2, res2.2)

/-! ## `database_cleanup.py` -/

/-- Models `DatabaseCleaner.cleanup_jobs` (lines 121-151): delete the jobs whose
`scrape_id` is not among the kept scrape ids; an empty keep-list is a
no-op (early return). -/
def cleanup_jobs (db : DB) (keep_scrape_ids : List Nat) : DB :=
  if keep_scrape_ids.isEmpty then db
  else { db with jobs := db.jobs.filter (fun j => keep_scrape_ids.contains j.scrapeId) }

/-- Models `DatabaseCleaner.cleanup_scraped_data` (lines 88-119): delete the
scrapes whose id is not among the kept ids; an empty keep-list is a
no-op. -/
def cleanup_scraped_data (db : DB) (keep_ids : List Nat) : DB :=
  if keep_ids.isEmpty then db
  else { db with scrapedData := db.scrapedData.filter (fun s => keep_ids.contains s.id) }

/-- Models `DatabaseCleaner.cleanup_orphaned_cover_letters` (lines 189-220):
`DELETE FROM cover_letters WHERE job_id NOT IN (SELECT id FROM jobs)`
(the preceding count only decides whether the `DELETE` is issued, which
does not change the resulting state). -/
def cleanup_orphaned_cover_letters (db : DB) : DB :=
  { db with coverLetters := db.coverLetters.filter (fun cl =>
      db.jobs.any (fun j => j.id == cl.jobId)) }

/-! ## Reachable database states

The states produced by the modelled mutating operations, starting from the
freshly initialised database.  `import_from_json_file` is a composite of
`add_scraped_data` and `add_job` and is covered by those constructors. -/

inductive Reach : DB → Prop where
  | init : Reach emptyDB
  | scraped (now st raw url fp notes) {db} :
      Reach db → Reach (add_scraped_data now db st raw url fp notes).1
  | job (now sid jd) {db} : Reach db → Reach (add_job now db sid jd).1
  | cover (now jid p t n) {db} : Reach db → Reach (add_cover_letter now db jid p t n).1
  | updCover (cid st r n) {db} : Reach db → Reach (update_cover_letter_status db cid st r n)
  | delCover (cid) {db} : Reach db → Reach (delete_cover_letter db cid)
  | cleanJobs (keep) {db} : Reach db → Reach (cleanup_jobs db keep)
  | cleanScraped (keep) {db} : Reach db → Reach (cleanup_scraped_data db keep)
  | cleanOrphans {db} : Reach db → Reach (cleanup_orphaned_cover_letters db)

/-! ## Derived predicates used by the statements -/

/-- Two job rows do not share a non-null `job_uid`. -/
def UidOk (a b : JobRow) : Prop :=
  a.jobUid = none ∨ b.jobUid = none ∨ a.jobUid ≠ b.jobUid

instance : DecidableRel UidOk := fun a b => by
  unfold UidOk; infer_instance

/-- Two job dictionaries do not share a non-null `job_uid`. -/
def UidOkData (a b : JobData) : Prop :=
  a.jobUid = none ∨ b.jobUid = none ∨ a.jobUid ≠ b.jobUid

instance : DecidableRel UidOkData := fun a b => by
  unfold UidOkData; infer_instance

/-- The row `add_job` inserts for a job dictionary stores that job's data
under the given scrape: every inserted column agrees with the
dictionary. -/
def rowMatches (sid : Nat) (jd : JobData) (r : JobRow) : Prop :=
  r.scrapeId = sid ∧ r.jobUid = jd.jobUid ∧ some r.jobTitle = jd.title ∧
  r.jobUrl = jd.url ∧ r.postedTime = jd.postedTime ∧
  r.jobType = jd.jobInfo.type ∧ r.experienceLevel = jd.jobInfo.experienceLevel ∧
  r.budget = jd.jobInfo.budget ∧ r.hourlyRateMin = jd.jobInfo.hourlyRateMin ∧
  r.hourlyRateMax = jd.jobInfo.hourlyRateMax ∧ r.duration = jd.jobInfo.duration ∧
  r.skills = jsonEncodeStringList jd.skills ∧ r.description = jd.description

instance (sid : Nat) (jd : JobData) (r : JobRow) : Decidable (rowMatches sid jd r) := by
  unfold rowMatches; infer_instance

/-- The database part of the `add_job` fold performed by
`import_from_json_file` over the `jobs` list. -/
def foldAddJobs (now sid : Nat) (l : List JobData) (db : DB) : DB :=
  l.foldl (fun acc jd => (add_job now acc sid jd).1) db

/-! ## Concrete inputs used by witnesses and counterexamples -/

/-- An element answering no query at all. -/
def elemN : Element := .mk (fun _ => none) (fun _ => none) (fun _ => []) ""

/-- A document whose second selector is the first to match. -/
def soupW : Soup :=
  { select := fun s => if s = "section[data-qa=\"job-tile\"]" then [elemN] else []
    selectOne := fun _ => none, titleText := none, canonicalLink := none }

/-- A title link with text `Dev` and a relative href. -/
def linkEl : Element :=
  .mk (fun a => if a = "href" then some "/jobs/1" else none)
      (fun _ => none) (fun _ => []) "Dev"

/-- A job element whose first title selector finds `linkEl`. -/
def elemT : Element :=
  .mk (fun _ => none)
      (fun s => if s = "h2.job-tile-title a[data-test=\"job-tile-title-link\"]"
                then some linkEl else none)
      (fun _ => []) ""

/-- A document with one titled job element. -/
def soupT : Soup :=
  { select := fun s => if s = "article[data-test=\"JobTile\"]" then [elemT] else []
    selectOne := fun _ => none, titleText := none, canonicalLink := none }

/-- A document with one job element from which no title can be extracted. -/
def soupN : Soup :=
  { select := fun s => if s = "article[data-test=\"JobTile\"]" then [elemN] else []
    selectOne := fun _ => none, titleText := none, canonicalLink := none }

/-- A job-info list item whose text contains both `Fixed price` and a
matching `Hourly: $A - $B` pattern. -/
def itemFP : Element :=
  .mk (fun _ => none) (fun _ => none) (fun _ => []) "Fixed priceHourly: $5 - $10"

/-- A titled job element carrying `itemFP` as its only job-info item. -/
def elemFP : Element :=
  .mk (fun _ => none)
      (fun s => if s = "h2.job-tile-title a[data-test=\"job-tile-title-link\"]"
                then some linkEl else none)
      (fun s => if s = "ul[data-test=\"JobInfo\"] li" then [itemFP] else [])
      ""

/-- A document with the single job element `elemFP`. -/
def soupFP : Soup :=
  { select := fun s => if s = "article[data-test=\"JobTile\"]" then [elemFP] else []
    selectOne := fun _ => none, titleText := none, canonicalLink := none }

/-- A job dictionary with uid `x` and title `A`. -/
def jdA : JobData :=
  { jobUid := some "x", title := some "A", url := none, postedTime := none,
    jobInfo := emptyJobInfo, description := none, skills := [] }

/-- A job dictionary with the same uid `x` but title `B`. -/
def jdB : JobData := { jdA with title := some "B" }

/-- The database after adding `jdA` to a fresh database. -/
def db1w : DB := (add_job 0 emptyDB 1 jdA).1

/-- A JSON file whose `jobs` list holds two distinct jobs sharing uid `x`. -/
def fileDup : JsonFile := { metadataUrl := none, jobs := some [jdA, jdB], dumps := "" }

/-- A JSON file whose `jobs` list holds the single job `jdA`. -/
def fileOne : JsonFile := { metadataUrl := none, jobs := some [jdA], dumps := "" }

/-- A job row with id 1. -/
def jRowW : JobRow :=
  { id := 1, scrapeId := 1, jobUid := some "x", jobTitle := "A", jobUrl := none,
    postedTime := none, jobType := none, experienceLevel := none, budget := none,
    hourlyRateMin := none, hourlyRateMax := none, duration := none,
    skills := "[]", description := none, parsedTimestamp := 0 }

/-- A cover letter referencing the existing job 1. -/
def clGoodW : CoverLetterRow :=
  { id := 1, jobId := 1, aiProvider := "openai", coverLetterText := "hi",
    generatedTimestamp := 0, status := "generated", rating := none, notes := none }

/-- A cover letter referencing the non-existent job 99. -/
def clOrphanW : CoverLetterRow := { clGoodW with id := 2, jobId := 99 }

/-- A database with one job, one valid cover letter and one orphan. -/
def dbW10 : DB :=
  { scrapedData := [], nextScrapeId := 1, jobs := [jRowW], nextJobId := 2,
    coverLetters := [clGoodW, clOrphanW], nextCoverId := 3 }

/-! # Theorems -/

/-- C2: `parse_upwork_jobs` selects job elements by a fixed fallback chain:
the elements matching `article[data-test="JobTile"]` are used whenever that
selector matched at least one element; only when it matched none are the
matches of `section[data-qa="job-tile"]` used; and only when that also
matched none are the matches of `[data-qa="job-tile"]` used. -/
theorem claim2_selector_fallback (soup : Soup) :
    (soup.select "article[data-test=\"JobTile\"]" ≠ [] →
      jobElements soup = soup.select "article[data-test=\"JobTile\"]")
  ∧ (soup.select "article[data-test=\"JobTile\"]" = [] →
      soup.select "section[data-qa=\"job-tile\"]" ≠ [] →
      jobElements soup = soup.select "section[data-qa=\"job-tile\"]")
  ∧ (soup.select "article[data-test=\"JobTile\"]" = [] →
      soup.select "section[data-qa=\"job-tile\"]" = [] →
      jobElements soup = soup.select "[data-qa=\"job-tile\"]") := by
  refine ⟨?_, ?_, ?_⟩
  · intro h1
    match h : soup.select "article[data-test=\"JobTile\"]" with
    | [] => exact absurd h h1
    | e :: es => simp [jobElements, h]
  · intro h1 h2
    match h : soup.select "section[data-qa=\"job-tile\"]" with
    | [] => exact absurd h h2
    | e :: es => simp [jobElements, h1, h]
  · intro h1 h2
    simp [jobElements, h1, h2]

/-- Witness for C2: on a document where the first selector matches nothing
and the second matches one element, that element is used. -/
theorem claim2_witness : jobElements soupW = [elemN] :=
  (claim2_selector_fallback soupW).2.1 rfl
    (fun h => List.cons_ne_nil elemN [] h)

/-- C6: `add_scraped_data` appends exactly one row to `scraped_data`,
holding the given raw content, the current timestamp, the given source URL
and status `active`, leaves the other tables unchanged, and returns the id
of that new row. -/
theorem claim6_scrape_row (now : Nat) (db : DB) (st raw : String)
    (url fp notes : Option String) :
    (add_scraped_data now db st raw url fp notes).1.scrapedData
      = db.scrapedData ++
        [{ id := (add_scraped_data now db st raw url fp notes).2,
           scrapeType := st, sourceUrl := url, scrapeTimestamp := now,
           rawContent := raw, filePath := fp, status := "active", notes := notes }]
  ∧ (add_scraped_data now db st raw url fp notes).2 = db.nextScrapeId
  ∧ (add_scraped_data now db st raw url fp notes).1.jobs = db.jobs
  ∧ (add_scraped_data now db st raw url fp notes).1.coverLetters = db.coverLetters :=
  ⟨rfl, rfl, rfl, rfl⟩

/-- C9: `parse_html_file` is total (it returns a result dictionary for
every outcome of reading the file); on a failure the result carries the
error message and `parsing_successful = false`; on a successful parse there
is no `error` key and `parsing_successful` is true exactly when at least
one job was extracted, so a cleanly parsed page with zero jobs is reported
as unsuccessful. -/
theorem claim9_parse_html_file_outcomes (nowIso fp : String)
    (input : Except String (String × Soup)) :
    (∀ e, input = Except.error e →
      (parse_html_file nowIso fp input).error = some e ∧
      (parse_html_file nowIso fp input).parsingStats.parsingSuccessful = false)
  ∧ (∀ html soup, input = Except.ok (html, soup) →
      (parse_html_file nowIso fp input).error = none ∧
      ((parse_html_file nowIso fp input).parsingStats.parsingSuccessful = true ↔
        parse_upwork_jobs soup ≠ [])) := by
  constructor
  · intro e h
    subst h
    exact ⟨rfl, rfl⟩
  · intro html soup h
    subst h
    refine ⟨rfl, ?_⟩
    simp [parse_html_file, List.length_pos]

/-- Witness for C9: a failing read yields the error dictionary; a page
that parses cleanly but yields zero jobs is reported unsuccessful. -/
theorem claim9_witness :
    (parse_html_file "t" "a/f.html" (Except.error "boom")).error = some "boom"
  ∧ (parse_html_file "t" "a/f.html" (Except.error "boom")).parsingStats.parsingSuccessful
      = false
  ∧ (parse_html_file "t" "a/f.html" (Except.ok ("<html>", soupN))).error = none
  ∧ (parse_html_file "t" "a/f.html"
      (Except.ok ("<html>", soupN))).parsingStats.parsingSuccessful = false := by
  have h1 := (claim9_parse_html_file_outcomes "t" "a/f.html" (Except.error "boom")).1
    "boom" rfl
  have h2 := (claim9_parse_html_file_outcomes "t" "a/f.html"
    (Except.ok ("<html>", soupN))).2 "<html>" soupN rfl
  refine ⟨h1.1, h1.2, h2.1, ?_⟩
  have hempty : parse_upwork_jobs soupN = [] := by decide
  cases hb : (parse_html_file "t" "a/f.html"
      (Except.ok ("<html>", soupN))).parsingStats.parsingSuccessful
  · rfl
  · exact absurd hempty (h2.2.mp hb)

/-- C10: `cleanup_orphaned_cover_letters` deletes exactly the cover letters
whose `job_id` matches no job row: afterwards every remaining cover letter
references an existing job, every cover letter that referenced an existing
job is still present (unchanged, as a sublist of the old table), and the
other tables are untouched. -/
theorem claim10_orphan_cleanup (db : DB) :
    (cleanup_orphaned_cover_letters db).jobs = db.jobs
  ∧ (cleanup_orphaned_cover_letters db).scrapedData = db.scrapedData
  ∧ List.Sublist (cleanup_orphaned_cover_letters db).coverLetters db.coverLetters
  ∧ (∀ cl ∈ (cleanup_orphaned_cover_letters db).coverLetters,
      ∃ j ∈ db.jobs, j.id = cl.jobId)
  ∧ (∀ cl ∈ db.coverLetters, (∃ j ∈ db.jobs, j.id = cl.jobId) →
      cl ∈ (cleanup_orphaned_cover_letters db).coverLetters) := by
  refine ⟨rfl, rfl, List.filter_sublist _, ?_, ?_⟩
  · intro cl hcl
    have h := (List.mem_filter.mp hcl).2
    simpa [List.any_eq_true] using h
  · intro cl hcl hex
    refine List.mem_filter.mpr ⟨hcl, ?_⟩
    simpa [List.any_eq_true] using hex

/-- Witness for C10: in a database with one job, one valid cover letter
and one orphan, the valid letter survives the cleanup and references the
existing job. -/
theorem claim10_witness :
    clGoodW ∈ (cleanup_orphaned_cover_letters dbW10).coverLetters
  ∧ ∃ j ∈ dbW10.jobs, j.id = clGoodW.jobId := by
  have h := (claim10_orphan_cleanup dbW10).2.2.2.2 clGoodW (by decide)
    ⟨jRowW, by decide, by decide⟩
  exact ⟨h, ⟨jRowW, by decide, by decide⟩⟩

/-- Counterexample to C5 as stated: the job-info item text
`Fixed priceHourly: $5 - $10` contains `Hourly:` and matches the pattern
`Hourly: $A - $B`, yet the job's type is set to `Fixed price` (the first
branch of the `elif` chain wins) and no hourly rates are recorded. -/
theorem claim5_counterexample :
    strContains "Fixed priceHourly: $5 - $10" "Hourly:" = true
  ∧ searchHourly "Fixed priceHourly: $5 - $10" = some ("5", "10")
  ∧ (parse_upwork_jobs soupFP).length = 1
  ∧ ∀ jd ∈ parse_upwork_jobs soupFP,
      jd.jobInfo.type = some "Fixed price" ∧ jd.jobInfo.hourlyRateMin = none := by
  decide

/-- C5 as amended: the job-info branches are an `elif` chain, so an item
containing `Fixed price` always sets the type to `Fixed price`; an item
not containing `Fixed price` whose text contains `Hourly:` and matches
`Hourly: $A - $B` sets the type to `Hourly` and the rate bounds to `A` and
`B`; and an item containing neither `Fixed price` nor `Hourly:` whose text
contains `Est. budget:` and matches `Est. budget: $C` sets the budget to
`C`. -/
theorem claim5_regex_fields (info : JobInfo) (text a b c : String) :
    (strContains text "Fixed price" = true →
      processJobInfoItem info text = { info with type := some "Fixed price" })
  ∧ (strContains text "Fixed price" = false →
      strContains text "Hourly:" = true →
      searchHourly text = some (a, b) →
      processJobInfoItem info text =
        { info with
          type := some "Hourly",
          hourlyRateMin := some a,
          hourlyRateMax := some b })
  ∧ (strContains text "Fixed price" = false →
      strContains text "Hourly:" = false →
      strContains text "Est. budget:" = true →
      searchBudget text = some c →
      processJobInfoItem info text = { info with budget := some c }) := by
  refine ⟨?_, ?_, ?_⟩
  · intro h
    simp [processJobInfoItem, h]
  · intro h1 h2 h3
    simp [processJobInfoItem, h1, h2, h3]
  · intro h1 h2 h3 h4
    simp [processJobInfoItem, h1, h2, h3, h4]

/-- Witness for the amended C5 on concrete items. -/
theorem claim5_witness :
    processJobInfoItem emptyJobInfo "Hourly: $5.00 - $10.00"
      = { emptyJobInfo with
          type := some "Hourly",
          hourlyRateMin := some "5.00",
          hourlyRateMax := some "10.00" }
  ∧ processJobInfoItem emptyJobInfo "Est. budget: $1,500"
      = { emptyJobInfo with budget := some "1,500" }
  ∧ processJobInfoItem emptyJobInfo "Fixed price"
      = { emptyJobInfo with type := some "Fixed price" } :=
  ⟨(claim5_regex_fields emptyJobInfo "Hourly: $5.00 - $10.00" "5.00" "10.00" "").2.1
      (by decide) (by decide) (by decide),
   (claim5_regex_fields emptyJobInfo "Est. budget: $1,500" "" "" "1,500").2.2
      (by decide) (by decide) (by decide) (by decide),
   (claim5_regex_fields emptyJobInfo "Fixed price" "" "" "").1 (by decide)⟩

/-! ### Helper lemmas: uniqueness of `job_uid` -/

/-- The operation `add_job` preserves pairwise distinctness of non-null uids: an
insert only happens when the new uid is null or fresh. -/
theorem add_job_uid_distinct (now : Nat) (db : DB) (sid : Nat) (jd : JobData)
    (h : List.Pairwise UidOk db.jobs) :
    List.Pairwise UidOk (add_job now db sid jd).1.jobs := by
  unfold add_job
  split
  · exact h
  · split
    · exact h
    next hc =>
      refine List.pairwise_append.mpr ⟨h, List.pairwise_singleton _ _, ?_⟩
      intro a ha b hb
      rw [List.mem_singleton] at hb
      subst hb
      cases hu : jd.jobUid with
      | none => exact Or.inr (Or.inl rfl)
      | some u =>
        refine Or.inr (Or.inr ?_)
        intro heq
        apply hc
        rw [hu]
        simp only [uidConflict, List.any_eq_true, beq_iff_eq]
        exact ⟨a, ha, heq⟩

/-- Every reachable database state has pairwise distinct non-null
`job_uid`s in the `jobs` table. -/
theorem reach_jobs_uid_distinct {db : DB} (h : Reach db) :
    List.Pairwise UidOk db.jobs := by
  induction h with
  | init => exact List.Pairwise.nil
  | scraped now st raw url fp notes _ ih => exact ih
  | job now sid jd _ ih => exact add_job_uid_distinct now _ sid jd ih
  | cover now jid p t n _ ih => exact ih
  | updCover cid st r n _ ih => exact ih
  | delCover cid _ ih => exact ih
  | cleanJobs keep _ ih =>
    by_cases hk : keep.isEmpty = true
    · simpa [cleanup_jobs, hk] using ih
    · simp only [cleanup_jobs, hk, if_false]
      exact List.Pairwise.sublist (List.filter_sublist _) ih
  | cleanScraped keep _ ih =>
    by_cases hk : keep.isEmpty = true
    · simpa [cleanup_scraped_data, hk] using ih
    · simpa [cleanup_scraped_data, hk] using ih
  | cleanOrphans _ ih => exact ih

/-- C1: the `UNIQUE` constraint on `job_uid` holds.  First, when some row
already carries a given non-null `job_uid` and `add_job` is called with a
job carrying the same uid, the insert is silently ignored and the jobs
table is unchanged.  Second, at every reachable database state no two rows
of the jobs table share a non-null `job_uid`. -/
theorem claim1_job_uid_unique (now : Nat) (db : DB) (sid : Nat) (jd : JobData)
    (u : String) :
    ((∃ r ∈ db.jobs, r.jobUid = some u) → jd.jobUid = some u →
      (add_job now db sid jd).1.jobs = db.jobs)
  ∧ (Reach db → List.Pairwise UidOk db.jobs) := by
  constructor
  · rintro ⟨r, hr, hru⟩ hjd
    have hc : uidConflict db.jobs jd.jobUid = true := by
      rw [hjd]
      simp only [uidConflict, List.any_eq_true, beq_iff_eq]
      exact ⟨r, hr, hru⟩
    unfold add_job
    cases ht : jd.title with
    | none => rfl
    | some t => simp only [hc, if_true]
  · exact reach_jobs_uid_distinct

/-- Witness for C1: adding a second job with the already-stored uid `x`
leaves the jobs table unchanged, and the reachable state after the first
add has pairwise distinct non-null uids. -/
theorem claim1_witness :
    (add_job 0 db1w 1 jdB).1.jobs = db1w.jobs
  ∧ List.Pairwise UidOk db1w.jobs :=
  ⟨(claim1_job_uid_unique 0 db1w 1 jdB "x").1 (by decide) (by decide),
   (claim1_job_uid_unique 0 db1w 1 jdB "x").2 (Reach.job 0 1 jdA Reach.init)⟩

/-- C8: `add_job`'s return value does not identify the affected row when
the insert is ignored: on the concrete state holding a job with uid `x`,
adding a different job with the same uid returns `cursor.lastrowid = 0`
(no successful insert happened on the fresh connection), the table is
unchanged, and no row of the jobs table has id 0 — in particular no row
with the returned id holds the given job's data. -/
theorem claim8_lastrowid_uninformative :
    (add_job 0 db1w 1 jdB).2 = 0
  ∧ (add_job 0 db1w 1 jdB).1.jobs = db1w.jobs
  ∧ ∀ r ∈ (add_job 0 db1w 1 jdB).1.jobs, r.id ≠ (add_job 0 db1w 1 jdB).2 := by
  decide

/-- C7: every cover letter is stored with the single job id it was
generated for (`job_id` is `NOT NULL` by schema, so it is a plain `Nat` in
the model and `add_cover_letter` records exactly the given id); and
`get_cover_letters_for_job j` returns exactly the stored cover letters
whose `job_id` equals `j` (a permutation of the filtered table, each row
projected to its seven selected columns), ordered by
`generated_timestamp` descending. -/
theorem claim7_cover_letters_by_job (db : DB) (j now : Nat) (p t : String)
    (n : Option String) :
    (add_cover_letter now db j p t n).1.coverLetters
      = db.coverLetters ++
        [{ id := db.nextCoverId, jobId := j, aiProvider := p, coverLetterText := t,
           generatedTimestamp := now, status := "generated", rating := none,
           notes := n }]
  ∧ List.Perm (get_cover_letters_for_job db j)
      ((db.coverLetters.filter (fun cl => cl.jobId == j)).map viewOfRow)
  ∧ List.Pairwise
      (fun a b : CoverLetterView => b.generatedTimestamp ≤ a.generatedTimestamp)
      (get_cover_letters_for_job db j) := by
  refine ⟨rfl, ?_, ?_⟩
  · exact (List.perm_insertionSort tsDesc _).map viewOfRow
  · have hs := List.sorted_insertionSort tsDesc
      (db.coverLetters.filter (fun cl => cl.jobId == j))
    exact List.Pairwise.map viewOfRow (fun a b hab => hab) hs

/-! ### Helper lemmas: the `add_job` fold of `import_from_json_file` -/

/-- One `add_job` call only ever appends to the jobs table. -/
theorem add_job_jobs_mono (now : Nat) (db : DB) (sid : Nat) (jd : JobData) :
    ∃ tail, (add_job now db sid jd).1.jobs = db.jobs ++ tail := by
  unfold add_job
  split
  · exact ⟨[], (List.append_nil _).symm⟩
  · split
    · exact ⟨[], (List.append_nil _).symm⟩
    · exact ⟨_, rfl⟩

/-- The `add_job` fold only ever appends to the jobs table. -/
theorem foldAddJobs_jobs_mono (now sid : Nat) (l : List JobData) :
    ∀ db : DB, ∃ tail, (foldAddJobs now sid l db).jobs = db.jobs ++ tail := by
  induction l with
  | nil => intro db; exact ⟨[], (List.append_nil _).symm⟩
  | cons hd rest ih =>
    intro db
    obtain ⟨t1, h1⟩ := add_job_jobs_mono now db sid hd
    obtain ⟨t2, h2⟩ := ih (add_job now db sid hd).1
    refine ⟨t1 ++ t2, ?_⟩
    calc (foldAddJobs now sid (hd :: rest) db).jobs
        = (foldAddJobs now sid rest (add_job now db sid hd).1).jobs := rfl
      _ = (add_job now db sid hd).1.jobs ++ t2 := h2
      _ = db.jobs ++ t1 ++ t2 := by rw [h1]
      _ = db.jobs ++ (t1 ++ t2) := List.append_assoc _ _ _

/-- The counting fold of `import_from_json_file` equals the database fold
paired with the length of the list: every entry is counted, inserted or
not. -/
theorem import_fold_spec (now sid : Nat) (l : List JobData) :
    ∀ (db : DB) (n : Nat),
      l.foldl (fun (acc : DB × Nat) job => ((add_job now acc.1 sid job).1, acc.2 + 1))
          (db, n)
        = (foldAddJobs now sid l db, n + l.length) := by
  induction l with
  | nil => intro db n; simp [foldAddJobs]
  | cons hd rest ih =>
    intro db n
    simp only [List.foldl_cons]
    rw [ih]
    simp only [List.length_cons]
    rw [show n + 1 + rest.length = n + (rest.length + 1) from by omega]
    rfl

/-- When the title is present and the uid does not conflict, `add_job`
appends a row storing exactly the job's data. -/
theorem add_job_insert_spec (now : Nat) (db : DB) (sid : Nat) (jd : JobData)
    (t : String) (ht : jd.title = some t)
    (hc : uidConflict db.jobs jd.jobUid = false) :
    ∃ r, (add_job now db sid jd).1.jobs = db.jobs ++ [r] ∧ rowMatches sid jd r := by
  simp only [add_job, ht, hc, Bool.false_eq_true, if_false]
  refine ⟨_, rfl, ?_⟩
  exact ⟨rfl, rfl, ht.symm, rfl, rfl, rfl, rfl, rfl, rfl, rfl, rfl, rfl, rfl⟩

/-- When every job in the list has a title, every non-null uid in the list
is fresh for the starting table and the uids are pairwise compatible, the
`add_job` fold stores every job of the list. -/
theorem foldAddJobs_stores (now sid : Nat) (l : List JobData) :
    ∀ db : DB,
      (∀ jd ∈ l, jd.title ≠ none) →
      (∀ jd ∈ l, uidConflict db.jobs jd.jobUid = false) →
      List.Pairwise UidOkData l →
      ∀ jd ∈ l, ∃ r ∈ (foldAddJobs now sid l db).jobs, rowMatches sid jd r := by
  induction l with
  | nil => intro db _ _ _ jd hjd; cases hjd
  | cons hd rest ih =>
    intro db hT hF hP jd hjd
    obtain ⟨t, ht⟩ : ∃ t, hd.title = some t := by
      cases hh : hd.title with
      | none => exact absurd hh (hT hd (List.mem_cons_self _ _))
      | some t => exact ⟨t, rfl⟩
    have hc : uidConflict db.jobs hd.jobUid = false := hF hd (List.mem_cons_self _ _)
    obtain ⟨r0, hr0, hm0⟩ := add_job_insert_spec now db sid hd t ht hc
    have hfold : foldAddJobs now sid (hd :: rest) db
        = foldAddJobs now sid rest (add_job now db sid hd).1 := rfl
    rcases List.mem_cons.mp hjd with heq | hmem
    · subst heq
      obtain ⟨tail, htail⟩ := foldAddJobs_jobs_mono now sid rest (add_job now db sid jd).1
      refine ⟨r0, ?_, hm0⟩
      rw [hfold, htail, hr0]
      simp [List.mem_append]
    · have hT' : ∀ x ∈ rest, x.title ≠ none := fun x hx => hT x (List.mem_cons_of_mem _ hx)
      have hP' : List.Pairwise UidOkData rest := (List.pairwise_cons.mp hP).2
      have hhd := (List.pairwise_cons.mp hP).1
      have hF' : ∀ x ∈ rest, uidConflict (add_job now db sid hd).1.jobs x.jobUid = false := by
        intro x hx
        cases hxu : x.jobUid with
        | none => rfl
        | some u =>
          have h1 : uidConflict db.jobs (some u) = false := by
            rw [← hxu]
            exact hF x (List.mem_cons_of_mem _ hx)
          have h2 : hd.jobUid ≠ some u := by
            rcases hhd x hx with h | h | h
            · simp [h]
            · simp [hxu] at h
            · intro he
              exact h (he.trans hxu.symm)
          rw [hr0]
          simp only [uidConflict, List.any_append, Bool.or_eq_false_iff]
          constructor
          · simpa [uidConflict] using h1
          · simpa [List.any_cons, List.any_nil, hm0.2.1] using h2
      have result := ih (add_job now db sid hd).1 hT' hF' hP' jd hmem
      rw [hfold]
      exact result

/-- Counterexample to C3 as stated: a JSON file whose `jobs` list holds two
jobs sharing the uid `x` (titles `A` and `B`).  Importing it reports
`jobs_added = 2`, yet job `B` is stored nowhere in the jobs table: the
duplicate insert was silently ignored, so not every job posting of the
list is stored. -/
theorem claim3_counterexample :
    (import_from_json_file 0 emptyDB "f.json" "imported" fileDup).2.2 = 2
  ∧ (import_from_json_file 0 emptyDB "f.json" "imported" fileDup).1.jobs.length = 1
  ∧ ∀ r ∈ (import_from_json_file 0 emptyDB "f.json" "imported" fileDup).1.jobs,
      r.jobTitle ≠ "B" := by
  decide

/-- C3 as amended: `import_from_json_file` records one `scraped_data` row
(returning its id as `scrape_id`), attempts to add each entry of the
`jobs` list via `INSERT OR IGNORE` — so the jobs table only grows — and
returns `jobs_added` equal to the length of the `jobs` list (0 when the
key is absent) regardless of how many rows were actually inserted; when
every entry has a title and the non-null uids are fresh and pairwise
distinct, every entry of the list is indeed stored under the returned
scrape id. -/
theorem claim3_import_counts_not_stores (now : Nat) (db : DB) (fp st : String)
    (data : JsonFile) :
    ((import_from_json_file now db fp st data).2.2 = (data.jobs.getD []).length)
  ∧ ((import_from_json_file now db fp st data).2.1 = db.nextScrapeId)
  ∧ (∃ tail, (import_from_json_file now db fp st data).1.jobs = db.jobs ++ tail)
  ∧ (∀ l, data.jobs = some l →
      (∀ jd ∈ l, jd.title ≠ none) →
      (∀ jd ∈ l, uidConflict db.jobs jd.jobUid = false) →
      List.Pairwise UidOkData l →
      ∀ jd ∈ l, ∃ r ∈ (import_from_json_file now db fp st data).1.jobs,
        rowMatches db.nextScrapeId jd r) := by
  cases hj : data.jobs with
  | none =>
    refine ⟨?_, ?_, ?_, ?_⟩
    · simp [import_from_json_file, hj]
    · simp [import_from_json_file, hj, add_scraped_data]
    · exact ⟨[], by simp [import_from_json_file, hj, add_scraped_data]⟩
    · intro l hl
      exact absurd hl (by simp)
  | some l0 =>
    refine ⟨?_, ?_, ?_, ?_⟩
    · simp [import_from_json_file, hj, import_fold_spec]
    · simp [import_from_json_file, hj, import_fold_spec, add_scraped_data]
    · simp only [import_from_json_file, hj, import_fold_spec]
      exact foldAddJobs_jobs_mono now _ l0 _
    · intro l hl hT hF hP jd hjd
      injection hl with hl
      subst hl
      simp only [import_from_json_file, hj, import_fold_spec]
      refine foldAddJobs_stores now _ l0 _ ?_ ?_ hP jd hjd
      · exact hT
      · exact hF

/-- Witness for the amended C3: importing a file with one fresh titled job
reports `jobs_added = 1` and stores that job. -/
theorem claim3_witness :
    (import_from_json_file 0 emptyDB "f.json" "imported" fileOne).2.2 = 1
  ∧ ∃ r ∈ (import_from_json_file 0 emptyDB "f.json" "imported" fileOne).1.jobs,
      rowMatches emptyDB.nextScrapeId jdA r :=
  ⟨(claim3_import_counts_not_stores 0 emptyDB "f.json" "imported" fileOne).1,
   (claim3_import_counts_not_stores 0 emptyDB "f.json" "imported" fileOne).2.2.2
     [jdA] rfl (by decide) (by decide) (by decide) jdA (by decide)⟩

/-- C4: every record returned by `parse_upwork_jobs` has a non-empty
title, and a matched job element from which no non-empty title could be
extracted (the title-link cascade found nothing, or its text is empty)
contributes no record to the output. -/
theorem claim4_records_have_titles (soup : Soup) :
    (∀ jd ∈ parse_upwork_jobs soup, ∃ t, jd.title = some t ∧ t ≠ "")
  ∧ (∀ e ∈ jobElements soup,
      (extractedTitle e = none ∨ extractedTitle e = some "") →
      parseJobElement e ∉ parse_upwork_jobs soup) := by
  constructor
  · intro jd hjd
    have hT := (List.mem_filter.mp hjd).2
    cases h : jd.title with
    | none => simp [titleTruthy, h] at hT
    | some t =>
      refine ⟨t, rfl, ?_⟩
      simpa [titleTruthy, h] using hT
  · intro e _ hbad hmem
    have hT := (List.mem_filter.mp hmem).2
    have htitle : (parseJobElement e).title = extractedTitle e := rfl
    cases hbad with
    | inl h => simp [titleTruthy, htitle, h] at hT
    | inr h => simp [titleTruthy, htitle, h] at hT

/-- Witness for C4: a titled element contributes a record with its
non-empty title; an element with no extractable title contributes
nothing. -/
theorem claim4_witness :
    (∃ t, (parseJobElement elemT).title = some t ∧ t ≠ "")
  ∧ parseJobElement elemN ∉ parse_upwork_jobs soupN := by
  constructor
  · exact (claim4_records_have_titles soupT).1 (parseJobElement elemT) (by decide)
  · have hje : jobElements soupN = [elemN] := rfl
    refine (claim4_records_have_titles soupN).2 elemN ?_ (Or.inl rfl)
    rw [hje]
    exact List.mem_singleton_self elemN

end Upwork
